import Mathlib

/-!
A shallow embedding of the bubblebee booking/invoicing backend, covering
the recurring-booking generation engine (services/scheduler.js), the
invoice/payment handlers (server.js: POST /api/payments,
POST /api/webhooks/stripe), the booking update handler
(PUT /api/bookings/:id), the public booking submission handler
(POST /api/bookings) and the overdue-invoice sweep
(checkOverdueInvoices in services/scheduler.js).

Monetary values are JavaScript numbers in the source; they are embedded
as rationals.  Calendar dates are embedded as (year, month, day) records
with the JavaScript `Date` normalization semantics (`setDate`/`setMonth`
overflow rolls into the following month) modelled explicitly.
-/

namespace Bubblebee

/-- A calendar date, as produced by `Date.toISOString().slice(0, 10)`. -/
structure CalDate where
  year : Nat
  month : Nat
  day : Nat
deriving Repr, DecidableEq

/-- Gregorian leap-year test (JavaScript `Date` semantics). -/
def isLeap (y : Nat) : Bool :=
  (y % 4 == 0 && y % 100 != 0) || (y % 400 == 0)

/-- Number of days in a month of a given year. -/
def daysInMonth (y m : Nat) : Nat :=
  if m = 2 then (if isLeap y then 29 else 28)
  else if m = 4 ∨ m = 6 ∨ m = 9 ∨ m = 11 then 30
  else 31

/-- Auxiliary recursion for `normalizeDate`: the first argument is a step
bound that dominates the excess day count (each roll-over removes at least
28 days, so `d` steps always suffice). -/
def normalizeAux : Nat → Nat → Nat → Nat → CalDate
  | 0, y, m, d => ⟨y, m, d⟩
  | fuel + 1, y, m, d =>
    if d ≤ daysInMonth y m then ⟨y, m, d⟩
    else if m ≥ 12 then normalizeAux fuel (y + 1) 1 (d - daysInMonth y m)
    else normalizeAux fuel y (m + 1) (d - daysInMonth y m)

/-- JavaScript `Date` field normalization: a day count exceeding the length
of the month rolls over into the following month (and December rolls into
January of the next year).  This is exactly what `setDate`/`setMonth` do
when handed an out-of-range day. -/
def normalizeDate (y m d : Nat) : CalDate :=
  normalizeAux d y m d

/-- `d.setDate(d.getDate() + n)` on a calendar date. -/
def jsAddDays (dt : CalDate) (n : Nat) : CalDate :=
  normalizeDate dt.year dt.month (dt.day + n)

/-- `d.setMonth(d.getMonth() + 1)`: the month index is incremented and the
day-of-month kept; if the target month lacks that day, JavaScript rolls the
excess days into the month after (it does not clamp). -/
def jsAddMonth (dt : CalDate) : CalDate :=
  if dt.month ≥ 12 then normalizeDate (dt.year + 1) 1 dt.day
  else normalizeDate dt.year (dt.month + 1) dt.day

/-- Chronological comparison of calendar dates (`Date` timestamp order,
equivalently ISO-string order). -/
def dateLe (a b : CalDate) : Bool :=
  a.year < b.year ||
    (a.year == b.year &&
      (a.month < b.month || (a.month == b.month && a.day ≤ b.day)))

/-- Strict chronological comparison (`due_date < date('now')`). -/
def dateLt (a b : CalDate) : Bool :=
  a.year < b.year ||
    (a.year == b.year &&
      (a.month < b.month || (a.month == b.month && a.day < b.day)))

/-! ## Data model (database/schema.sql rows, camelCased as by db.query) -/

/-- A row of the `customers` table (the fields the embedded handlers touch). -/
structure Customer where
  id : Nat
  email : String
  firstName : String
  lastName : String
  phone : Option String
  address : Option String
  totalSpent : Rat
  source : Option String
deriving Repr, DecidableEq

/-- A row of the `services` table. -/
structure Service where
  id : String
  name : String
  basePrice : Rat
deriving Repr, DecidableEq

/-- A row of the `bookings` table. -/
structure Booking where
  id : Nat
  customerId : Nat
  serviceId : String
  scheduledDate : CalDate
  scheduledTime : String
  address : Option String
  sqft : Option Nat
  bedrooms : Option Nat
  bathrooms : Option Nat
  basePrice : Rat
  totalPrice : Rat
  status : String
  frequency : Option String
  isRecurring : Bool
  recurringId : Option Nat
  assignedTo : Option Nat
  notes : Option String
  confirmedAt : Option String
  startedAt : Option String
  completedAt : Option String
  cancelledAt : Option String
  cancellationReason : Option String
deriving Repr, DecidableEq

/-- A row of the `recurring_templates` table. -/
structure RecurringTemplate where
  id : Nat
  customerId : Nat
  serviceId : String
  frequency : String
  preferredTime : Option String
  address : Option String
  sqft : Option Nat
  bedrooms : Option Nat
  bathrooms : Option Nat
  basePrice : Rat
  isActive : Bool
  nextDate : Option CalDate
deriving Repr, DecidableEq

/-- A row of the `invoices` table. -/
structure Invoice where
  id : Nat
  invoiceNumber : String
  customerId : Nat
  bookingId : Option Nat
  subtotal : Rat
  taxRate : Rat
  taxAmount : Rat
  total : Rat
  amountPaid : Rat
  amountDue : Rat
  status : String
  dueDate : CalDate
  paidDate : Option String
  sentAt : Option String
  stripePaymentIntent : Option String
deriving Repr, DecidableEq

/-- A row of the `payments` table. -/
structure Payment where
  id : Nat
  invoiceId : Nat
  customerId : Nat
  amount : Rat
  method : String
  referenceNumber : Option String
  stripePaymentId : Option String
  notes : Option String
  status : String
deriving Repr, DecidableEq

/-- The relational store (the tables the embedded operations read or write). -/
structure DB where
  customers : List Customer
  services : List Service
  bookings : List Booking
  templates : List RecurringTemplate
  invoices : List Invoice
  payments : List Payment
deriving Repr, DecidableEq

/-! ## Invoice / payment handlers (server.js) -/

/-- Replace the invoice row(s) matching `invId`
(`UPDATE invoices ... WHERE id = ?`). -/
def updateInvoiceRow (db : DB) (invId : Nat) (f : Invoice → Invoice) : DB :=
  { db with invoices := db.invoices.map (fun i => if i.id = invId then f i else i) }

/-- Result of `POST /api/payments`. -/
inductive PayResp where
  | notFound
  | created (paymentId : Nat)
deriving Repr, DecidableEq

/-- `POST /api/payments` (server.js, record manual payment).  The handler
looks the invoice up, inserts a `payments` row, recomputes
`amount_paid`/`amount_due` (clamping `amount_due` at 0), derives the status,
stamps `paid_date`, and credits the customer's `total_spent`.  It performs no
validation of `amount` whatsoever.  `paymentId` stands for the generated
uuid and `now` for `datetime('now')`. -/
def postPayments (db : DB) (paymentId invoiceId : Nat) (amount : Rat)
    (method : String) (referenceNumber notes : Option String)
    (now : String) : PayResp × DB :=
  match db.invoices.find? (fun i => decide (i.id = invoiceId)) with
  | none => (PayResp.notFound, db)
  | some invoice =>
    let payment : Payment :=
      { id := paymentId, invoiceId := invoiceId, customerId := invoice.customerId,
        amount := amount, method := method, referenceNumber := referenceNumber,
        stripePaymentId := none, notes := notes, status := "completed" }
    let db1 : DB := { db with payments := db.payments ++ [payment] }
    let newAmountPaid := invoice.amountPaid + amount
    let newAmountDue := invoice.total - newAmountPaid
    let newStatus := if newAmountDue ≤ 0 then "paid" else "partial"
    let db2 := updateInvoiceRow db1 invoiceId (fun i =>
      { i with amountPaid := newAmountPaid, amountDue := max 0 newAmountDue,
               status := newStatus, paidDate := some now })
    let db3 : DB := { db2 with customers := db2.customers.map (fun c =>
      if c.id = invoice.customerId then { c with totalSpent := c.totalSpent + amount }
      else c) }
    (PayResp.created paymentId, db3)

/-- The `data.object` of a Stripe `checkout.session.completed` event:
`metadata.invoice_id`, `amount_total` (in cents) and `payment_intent`. -/
structure StripeSession where
  invoiceId : Option Nat
  amountTotal : Rat
  paymentIntent : String
deriving Repr, DecidableEq

/-- A verified Stripe webhook event. -/
structure StripeEvent where
  type : String
  session : StripeSession
deriving Repr, DecidableEq

/-- Result of `POST /api/webhooks/stripe`. -/
inductive WebhookResp where
  | received
  | webhookError
deriving Repr, DecidableEq

/-- `POST /api/webhooks/stripe` (server.js).  On a `checkout.session.completed`
event carrying an `invoice_id`, the handler unconditionally inserts a
`payments` row for the session's `payment_intent` and sets the invoice to
fully paid (`amount_paid = total`, `amount_due = 0`, `status = 'paid'`).
There is no check whether the invoice is already paid or whether a payment
for that payment intent was already recorded.  A missing invoice makes the
handler dereference `null` and the outer catch answers 400. -/
def stripeWebhook (db : DB) (paymentId : Nat) (event : StripeEvent)
    (now : String) : WebhookResp × DB :=
  if event.type = "checkout.session.completed" then
    match event.session.invoiceId with
    | none => (WebhookResp.received, db)
    | some invId =>
      match db.invoices.find? (fun i => decide (i.id = invId)) with
      | none => (WebhookResp.webhookError, db)
      | some invoice =>
        let payment : Payment :=
          { id := paymentId, invoiceId := invId, customerId := invoice.customerId,
            amount := event.session.amountTotal / 100, method := "card",
            referenceNumber := none,
            stripePaymentId := some event.session.paymentIntent,
            notes := none, status := "completed" }
        let db1 : DB := { db with payments := db.payments ++ [payment] }
        let db2 := updateInvoiceRow db1 invId (fun i =>
          { i with amountPaid := i.total, amountDue := 0, status := "paid",
                   paidDate := some now,
                   stripePaymentIntent := some event.session.paymentIntent })
        (WebhookResp.received, db2)
  else (WebhookResp.received, db)

/-! ## Booking update handler (server.js, PUT /api/bookings/:id) -/

/-- The request body of `PUT /api/bookings/:id`, restricted to the allowed
fields; `none` stands for `undefined` (field absent). -/
structure BookingUpdates where
  scheduledDate : Option CalDate
  scheduledTime : Option String
  status : Option String
  assignedTo : Option Nat
  notes : Option String
  totalPrice : Option Rat
  cancellationReason : Option String
deriving Repr, DecidableEq

/-- An empty update body. -/
def BookingUpdates.empty : BookingUpdates :=
  ⟨none, none, none, none, none, none, none⟩

/-- Result of `PUT /api/bookings/:id`. -/
inductive UpdateResp where
  | notFound
  | ok (booking : Booking)
deriving Repr, DecidableEq

/-- `PUT /api/bookings/:id` (server.js).  Copies every provided allowed field
onto the row, sets the entry timestamps on first entry into
`confirmed`/`in_progress`/`completed`, and on `cancelled` stamps
`cancelled_at` and copies the (possibly absent) `cancellationReason`.
No status-transition validation is performed: whatever `status` value the
request carries is stored. -/
def putBooking (db : DB) (bid : Nat) (u : BookingUpdates) (now : String) :
    UpdateResp × DB :=
  match db.bookings.find? (fun b => decide (b.id = bid)) with
  | none => (UpdateResp.notFound, db)
  | some booking =>
    let b1 : Booking := { booking with
      scheduledDate := u.scheduledDate.getD booking.scheduledDate,
      scheduledTime := u.scheduledTime.getD booking.scheduledTime,
      status := u.status.getD booking.status,
      assignedTo := match u.assignedTo with
        | some a => some a
        | none => booking.assignedTo,
      notes := match u.notes with
        | some n => some n
        | none => booking.notes,
      totalPrice := u.totalPrice.getD booking.totalPrice }
    let b2 := if u.status = some "confirmed" ∧ booking.confirmedAt = none then
        { b1 with confirmedAt := some now } else b1
    let b3 := if u.status = some "in_progress" ∧ booking.startedAt = none then
        { b2 with startedAt := some now } else b2
    let b4 := if u.status = some "completed" ∧ booking.completedAt = none then
        { b3 with completedAt := some now } else b3
    let b5 := if u.status = some "cancelled" then
        { b4 with cancelledAt := some now,
                  cancellationReason := u.cancellationReason } else b4
    let db1 : DB :=
      { db with bookings := db.bookings.map (fun b => if b.id = bid then b5 else b) }
    (UpdateResp.ok b5, db1)

/-! ## Public booking submission (server.js, POST /api/bookings) -/

/-- JavaScript `String.prototype.toLowerCase()` (over its ASCII range),
character by character. -/
def jsToLower (s : String) : String := String.mk (s.data.map Char.toLower)

/-- JavaScript `a || b` for an optional string: `undefined` and `""` are falsy. -/
def jsOrStr (a : Option String) (b : Option String) : Option String :=
  match a with
  | some s => if s = "" then b else some s
  | none => b

/-- JavaScript `a || b` for an optional string against a string default. -/
def jsOrStrD (a : Option String) (b : String) : String :=
  match a with
  | some s => if s = "" then b else s
  | none => b

/-- JavaScript `a || b` for an optional number against a number default
(`0` is falsy). -/
def jsOrNat (a : Option Nat) (b : Nat) : Nat :=
  match a with
  | some n => if n = 0 then b else n
  | none => b

/-- `data.customerName?.split(' ')[0] || 'Customer'`. -/
def firstNameOf (name : Option String) : String :=
  match name with
  | none => "Customer"
  | some n =>
    let w := (n.splitOn " ").headD ""
    if w = "" then "Customer" else w

/-- `data.customerName?.split(' ').slice(1).join(' ') || ''`. -/
def lastNameOf (name : Option String) : String :=
  match name with
  | none => ""
  | some n => String.intercalate " " (n.splitOn " ").tail

/-- `serviceMap[data.service] || 'svc_regular'`. -/
def mappedServiceId (service : Option String) : String :=
  match service with
  | some "regular" => "svc_regular"
  | some "deep" => "svc_deep"
  | some "moveout" => "svc_moveout"
  | _ => "svc_regular"

/-- The body of a public `POST /api/bookings` submission; `none` stands for an
absent field. -/
structure BookingSubmission where
  customerEmail : Option String
  customerName : Option String
  customerPhone : Option String
  scheduledDate : Option CalDate
  scheduledTime : Option String
  address : Option String
  sqft : Option Nat
  bedrooms : Option Nat
  bathrooms : Option Nat
  price : Option Rat
  service : Option String
  frequency : Option String
deriving Repr, DecidableEq

/-- Result of `POST /api/bookings`. -/
inductive BookResp where
  | badRequest
  | bookingCreated (bookingId : Nat)
deriving Repr, DecidableEq

/-- `POST /api/bookings` (server.js, public booking creation).  After the
required-field check the handler looks the customer up by the lowercased
submitted email; if no row matches it inserts a new customer carrying that
lowercased email.  It then computes the price and inserts the booking
attached to the found-or-created customer.  `newCustomerId`/`newBookingId`
stand for the generated uuids.  The executed DDL (database/init.js — the
only code that creates the tables) declares no foreign keys, so the booking
insert succeeds even when the mapped service row is absent. -/
def postBookings (db : DB) (newCustomerId newBookingId : Nat)
    (data : BookingSubmission) : BookResp × DB :=
  match data.customerEmail, data.scheduledDate, data.scheduledTime with
  | some e, some sd, some st =>
    if e = "" ∨ st = "" then (BookResp.badRequest, db)
    else
      let email := jsToLower e
      let foundCustomer := db.customers.find? (fun c => decide (c.email = email))
      let customer : Customer :=
        match foundCustomer with
        | some c => c
        | none =>
          { id := newCustomerId, email := email,
            firstName := firstNameOf data.customerName,
            lastName := lastNameOf data.customerName,
            phone := data.customerPhone, address := data.address,
            totalSpent := 0, source := some "website" }
      let dbc : DB :=
        match foundCustomer with
        | some _ => db
        | none => { db with customers := db.customers ++ [customer] }
      let serviceId := mappedServiceId data.service
      let svc := db.services.find? (fun s => decide (s.id = serviceId))
      let basePrice : Rat :=
        match svc with
        | none => 99
        | some s => if s.basePrice = 0 then 99 else s.basePrice
      let sizeAdjustment : Rat :=
        max 0 (((jsOrNat data.sqft 1000 : Rat) - 1000) * (3 / 100))
      let roomsAdjustment : Rat :=
        (max 0 ((jsOrNat data.bedrooms 1 : Rat) - 1)) * 15 +
        (max 0 ((jsOrNat data.bathrooms 1 : Rat) - 1)) * 20
      let computed : Rat :=
        ((round (basePrice + sizeAdjustment + roomsAdjustment) : Int) : Rat)
      let totalPrice : Rat :=
        match data.price with
        | none => computed
        | some p => if p = 0 then computed else p
      let booking : Booking :=
        { id := newBookingId, customerId := customer.id, serviceId := serviceId,
          scheduledDate := sd, scheduledTime := st,
          address := jsOrStr data.address customer.address,
          sqft := data.sqft, bedrooms := data.bedrooms,
          bathrooms := data.bathrooms, basePrice := basePrice,
          totalPrice := totalPrice, status := "pending",
          frequency := some (jsOrStrD data.frequency "once"),
          isRecurring := decide (∃ f, data.frequency = some f ∧ f ≠ "" ∧ f ≠ "once"),
          recurringId := none, assignedTo := none, notes := none,
          confirmedAt := none, startedAt := none, completedAt := none,
          cancelledAt := none, cancellationReason := none }
      (BookResp.bookingCreated newBookingId,
        { dbc with bookings := dbc.bookings ++ [booking] })
  | _, _, _ => (BookResp.badRequest, db)

/-! ## Recurring generation engine (services/scheduler.js) -/

/-- The `switch (template.frequency)` advancing the cursor: `weekly` adds 7
days, `biweekly` adds 14 days, `monthly` applies `setMonth(getMonth() + 1)`.
The switch has no default case, so any other frequency leaves the cursor
unchanged. -/
def advanceDate (freq : String) (d : CalDate) : CalDate :=
  if freq = "weekly" then jsAddDays d 7
  else if freq = "biweekly" then jsAddDays d 14
  else if freq = "monthly" then jsAddMonth d
  else d

/-- The booking row inserted for one occurrence of a template. -/
def bookingFromTemplate (t : RecurringTemplate) (bid : Nat) (d : CalDate) :
    Booking :=
  { id := bid, customerId := t.customerId, serviceId := t.serviceId,
    scheduledDate := d, scheduledTime := jsOrStrD t.preferredTime "09:00 AM",
    address := t.address, sqft := t.sqft, bedrooms := t.bedrooms,
    bathrooms := t.bathrooms, basePrice := t.basePrice,
    totalPrice := t.basePrice, status := "pending",
    frequency := some t.frequency, isRecurring := true,
    recurringId := some t.id, assignedTo := none, notes := none,
    confirmedAt := none, startedAt := none, completedAt := none,
    cancelledAt := none, cancellationReason := none }

/-- The per-date existence check
(`SELECT id FROM bookings WHERE recurring_id = ? AND scheduled_date = ?`). -/
def occupied (db : DB) (tid : Nat) (d : CalDate) : Bool :=
  db.bookings.any (fun b => decide (b.recurringId = some tid ∧ b.scheduledDate = d))

/-- `UPDATE recurring_templates SET next_date = ? WHERE id = ?`. -/
def setNextDate (db : DB) (tid : Nat) (d : CalDate) : DB :=
  { db with templates := db.templates.map (fun t =>
      if t.id = tid then { t with nextDate := some d } else t) }

/-- The `while (nextDate <= endDate)` loop of `generateRecurringBookings`,
with an explicit step bound.  Each iteration checks for an existing booking
on the cursor date, inserts one if absent (consuming one id from the `ctr`
supply), and advances the cursor by the template's frequency.  On exit the
template's `next_date` is set to the final cursor and the created bookings
are returned.  The executed DDL (database/init.js — the only code that
creates the tables) declares no foreign-key or check constraints, so the
insert always succeeds, even for dangling customer/service references, and
no statement of the loop body can throw.  `none` means the loop did not
complete within the step bound (with an unknown frequency the cursor never
advances and the source loop never exits). -/
def genLoop (t : RecurringTemplate) (endDate : CalDate) :
    Nat → CalDate → DB → Nat → List Booking →
    Option (DB × Nat × List Booking)
  | 0, _, _, _, _ => none
  | fuel + 1, cursor, db, ctr, acc =>
    if dateLe cursor endDate then
      if occupied db t.id cursor then
        genLoop t endDate fuel (advanceDate t.frequency cursor) db ctr acc
      else
        genLoop t endDate fuel (advanceDate t.frequency cursor)
          { db with bookings := db.bookings ++ [bookingFromTemplate t ctr cursor] }
          (ctr + 1) (acc ++ [bookingFromTemplate t ctr cursor])
    else some (setNextDate db t.id cursor, ctr, acc)

/-- `date('now', '+14 days')`, the generation horizon. -/
def genHorizon (today : CalDate) : CalDate := jsAddDays today 14

/-- Processing of one template: the cursor starts at
`template.nextDate ? new Date(template.nextDate) : new Date()`.  The
source wraps this body in a per-template `try`/`catch`, but under the
executed DDL none of its statements can throw, so the `catch` is dead
code. -/
def processTemplate (today : CalDate) (fuel : Nat) (t : RecurringTemplate)
    (db : DB) (ctr : Nat) : Option (DB × Nat × List Booking) :=
  genLoop t (genHorizon today) fuel (t.nextDate.getD today) db ctr []

/-- The template selection predicate of the engine's query
(`is_active = 1 AND (next_date IS NULL OR next_date <= date('now','+14 days'))`). -/
def templateSelected (today : CalDate) (t : RecurringTemplate) : Bool :=
  t.isActive &&
    (match t.nextDate with
     | none => true
     | some d => dateLe d (genHorizon today))

/-- The templates the engine's initial query returns. -/
def selectedTemplates (today : CalDate) (db : DB) : List RecurringTemplate :=
  db.templates.filter (templateSelected today)

/-- The `for (const template of templates)` loop.  A template whose
`while` loop does not complete within the step bound makes the whole run
diverge (`none`) — divergence is not an exception, so the per-template
`try`/`catch` does not confine it. -/
def runTemplates (today : CalDate) (fuel : Nat) :
    List RecurringTemplate → DB → Nat → List Booking →
    Option (DB × Nat × List Booking)
  | [], db, ctr, acc => some (db, ctr, acc)
  | t :: rest, db, ctr, acc =>
    match processTemplate today fuel t db ctr with
    | none => none
    | some (db1, ctr1, created) =>
      runTemplates today fuel rest db1 ctr1 (acc ++ created)

/-- `generateRecurringBookings` (services/scheduler.js): select the active
templates inside the horizon and process each in turn.  `fuel` bounds the
number of iterations of each template's `while` loop; `none` means some
selected template's loop did not terminate within that bound. -/
def generateRecurringBookings (today : CalDate) (fuel : Nat) (db : DB)
    (ctr : Nat) : Option (DB × Nat × List Booking) :=
  runTemplates today fuel (selectedTemplates today db) db ctr []

/-- The sequence of cursor dates a template's loop visits inside the
horizon (the expected occurrence dates). -/
def occList (freq : String) (endDate : CalDate) : Nat → CalDate → List CalDate
  | 0, _ => []
  | fuel + 1, cur =>
    if dateLe cur endDate then
      cur :: occList freq endDate fuel (advanceDate freq cur)
    else []

/-! ## Overdue sweep (services/scheduler.js, checkOverdueInvoices) -/

/-- `checkOverdueInvoices` (services/scheduler.js):
`UPDATE invoices SET status = 'overdue' WHERE status = 'sent' AND
due_date < date('now') AND amount_due > 0`.  The follow-up overdue
notice emails do not change invoice rows. -/
def checkOverdueInvoices (today : CalDate) (db : DB) : DB :=
  { db with invoices := db.invoices.map (fun i =>
      if i.status = "sent" ∧ dateLt i.dueDate today ∧ 0 < i.amountDue then
        { i with status := "overdue" }
      else i) }

/-! ## Payment-application sequences (for the reconciliation invariant) -/

/-- One payment application: a staff manual recording or a processor
webhook confirmation. -/
inductive PayOp where
  | manual (paymentId invoiceId : Nat) (amount : Rat) (method : String) (now : String)
  | hook (paymentId : Nat) (event : StripeEvent) (now : String)
deriving Repr, DecidableEq

/-- The database effect of one payment application. -/
def applyOp (db : DB) : PayOp → DB
  | PayOp.manual pid iid amt m now => (postPayments db pid iid amt m none none now).2
  | PayOp.hook pid ev now => (stripeWebhook db pid ev now).2

/-- The database effect of a sequence of payment applications. -/
def applyOps : DB → List PayOp → DB
  | db, [] => db
  | db, op :: rest => applyOps (applyOp db op) rest

/-- A manual payment is within the invoice's remaining balance at the moment
it is applied (webhook confirmations are unconstrained). -/
def opOk (db : DB) : PayOp → Prop
  | PayOp.manual _ iid amt _ _ => ∀ i ∈ db.invoices, i.id = iid → amt ≤ i.amountDue
  | PayOp.hook _ _ _ => True

/-- Every payment of the sequence is within the remaining balance at its
point of application. -/
def validSeq : DB → List PayOp → Prop
  | _, [] => True
  | db, op :: rest => opOk db op ∧ validSeq (applyOp db op) rest

/-- The reconciliation invariant of one invoice row. -/
def invoiceInv (i : Invoice) : Prop :=
  i.amountPaid + i.amountDue = i.total ∧ 0 ≤ i.amountDue

/-- The `(recurringTemplateId, scheduledDate)` keys of the recurring
bookings in the store. -/
def recPairs (db : DB) : List (Nat × CalDate) :=
  db.bookings.filterMap (fun b => b.recurringId.map (fun rid => (rid, b.scheduledDate)))

/-- The scheduled dates of the bookings of one template within a booking
list. -/
def tDatesOf (l : List Booking) (tid : Nat) : List CalDate :=
  (l.filter (fun b => decide (b.recurringId = some tid))).map (fun b => b.scheduledDate)

/-- The scheduled dates of the bookings of one template in the store. -/
def tDates (db : DB) (tid : Nat) : List CalDate :=
  tDatesOf db.bookings tid

/-- Look a template row up by id. -/
def findTemplate (db : DB) (tid : Nat) : Option RecurringTemplate :=
  db.templates.find? (fun x => decide (x.id = tid))

/-! ## Concrete fixtures (seed rows used by the closed test theorems) -/

/-- The seeded regular-cleaning service row. -/
def exSvc : Service :=
  { id := "svc_regular", name := "Regular Cleaning", basePrice := 99 }

/-- A customer row. -/
def exCustomer : Customer :=
  { id := 1, email := "a@b.com", firstName := "Ann", lastName := "Lee",
    phone := none, address := none, totalSpent := 0, source := none }

/-- An active weekly template of that customer, next due 2025-01-01. -/
def exTemplateW : RecurringTemplate :=
  { id := 1, customerId := 1, serviceId := "svc_regular", frequency := "weekly",
    preferredTime := none, address := none, sqft := none, bedrooms := none,
    bathrooms := none, basePrice := 99, isActive := true,
    nextDate := some ⟨2025, 1, 1⟩ }

/-- A base store: one customer, one service, one weekly template. -/
def exDb0 : DB :=
  { customers := [exCustomer], services := [exSvc], bookings := [],
    templates := [exTemplateW], invoices := [], payments := [] }

/-- An active template with a frequency outside the three known values. -/
def exTemplateBad : RecurringTemplate := { exTemplateW with frequency := "daily" }

/-- A store whose only active template has the unknown frequency. -/
def exDbBad : DB := { exDb0 with templates := [exTemplateBad] }

/-- A second template whose customer reference (id 2) does not exist:
processing it makes the booking insert throw. -/
def exTemplate2 : RecurringTemplate := { exTemplateW with id := 2, customerId := 2 }

/-- A third, healthy template. -/
def exTemplate3 : RecurringTemplate := { exTemplateW with id := 3 }

/-- Three active templates of which the middle one fails during
generation. -/
def exDbIso : DB := { exDb0 with templates := [exTemplateW, exTemplate2, exTemplate3] }

/-- A sent invoice over 100 with nothing paid. -/
def exInvoice : Invoice :=
  { id := 1, invoiceNumber := "INV-1001", customerId := 1, bookingId := none,
    subtotal := 100, taxRate := 0, taxAmount := 0, total := 100,
    amountPaid := 0, amountDue := 100, status := "sent",
    dueDate := ⟨2025, 2, 1⟩, paidDate := none, sentAt := none,
    stripePaymentIntent := none }

/-- The base store extended with that invoice. -/
def exDbPay : DB := { exDb0 with invoices := [exInvoice] }

/-- A checkout-completed event for that invoice. -/
def exEvent : StripeEvent :=
  { type := "checkout.session.completed",
    session := { invoiceId := some 1, amountTotal := 10000, paymentIntent := "pi_1" } }

/-- A completed booking. -/
def exBookingDone : Booking :=
  { id := 1, customerId := 1, serviceId := "svc_regular",
    scheduledDate := ⟨2025, 1, 2⟩, scheduledTime := "09:00 AM", address := none,
    sqft := none, bedrooms := none, bathrooms := none, basePrice := 99,
    totalPrice := 99, status := "completed", frequency := some "once",
    isRecurring := false, recurringId := none, assignedTo := none, notes := none,
    confirmedAt := none, startedAt := none, completedAt := some "T0",
    cancelledAt := none, cancellationReason := none }

/-- A pending booking. -/
def exBookingPending : Booking :=
  { exBookingDone with id := 2, status := "pending", completedAt := none }

/-- The base store extended with the completed and the pending booking. -/
def exDbBooking : DB := { exDb0 with bookings := [exBookingDone, exBookingPending] }

/-- An invoice that is already overdue before the sweep. -/
def exInvoiceOverdue : Invoice :=
  { exInvoice with
    id := 2, status := "overdue",
    amountDue := 50, amountPaid := 50, dueDate := ⟨2024, 1, 1⟩ }

/-- An invoice due yesterday with nothing left to pay. -/
def exInvoiceZeroDue : Invoice :=
  { exInvoice with
    id := 3, status := "sent",
    amountDue := 0, amountPaid := 100, dueDate := ⟨2025, 2, 28⟩ }

/-- Sweep fixture: one sent overdue-able invoice, one already-overdue
invoice, one sent invoice due yesterday with zero balance. -/
def exDbSweep : DB :=
  { exDb0 with invoices := [{ exInvoice with dueDate := ⟨2025, 2, 28⟩ },
                            exInvoiceOverdue, exInvoiceZeroDue] }

/-- A public booking submission whose email differs from the stored
customer's only by case. -/
def exSubmission : BookingSubmission :=
  { customerEmail := some "A@B.com", customerName := some "Ann Lee",
    customerPhone := none, scheduledDate := some ⟨2025, 1, 5⟩,
    scheduledTime := some "09:00 AM", address := none, sqft := none,
    bedrooms := none, bathrooms := none, price := none, service := none,
    frequency := none }

/-- The base store without any customers. -/
def exDbNoCustomers : DB := { exDb0 with customers := [] }

/-- A generation run over the base store on 2025-01-01. -/
def exGenRun : Option (DB × Nat × List Booking) :=
  generateRecurringBookings ⟨2025, 1, 1⟩ 20 exDb0 100

/-- The store after that run. -/
def exDb1 : DB := (exGenRun.getD (exDb0, 0, [])).1

/-- The id-supply counter after that run. -/
def exCtr1 : Nat := (exGenRun.getD (exDb0, 0, [])).2.1

/-- The bookings created by that run. -/
def exCreated : List Booking := (exGenRun.getD (exDb0, 0, [])).2.2

/-- A generation run over the three-template store (the middle template
fails) on 2025-01-01. -/
def exGenRunIso : Option (DB × Nat × List Booking) :=
  generateRecurringBookings ⟨2025, 1, 1⟩ 20 exDbIso 100

/-- The store after that run. -/
def exDb1iso : DB := (exGenRunIso.getD (exDbIso, 0, [])).1

/-- The id-supply counter after that run. -/
def exCtr1iso : Nat := (exGenRunIso.getD (exDbIso, 0, [])).2.1

/-- The bookings created by that run. -/
def exCreatedIso : List Booking := (exGenRunIso.getD (exDbIso, 0, [])).2.2

/-! ## Structural lemmas about the generation engine -/

theorem tDatesOf_append (l1 l2 : List Booking) (tid : Nat) :
    tDatesOf (l1 ++ l2) tid = tDatesOf l1 tid ++ tDatesOf l2 tid := by
  simp [tDatesOf, List.filter_append]

theorem occupied_iff_mem (db : DB) (tid : Nat) (d : CalDate) :
    occupied db tid d = true ↔ d ∈ tDates db tid := by
  simp only [occupied, tDates, tDatesOf, List.any_eq_true, List.mem_map,
    List.mem_filter, decide_eq_true_eq]
  constructor
  · rintro ⟨b, hb, h1, h2⟩
    exact ⟨b, ⟨hb, by simp [h1]⟩, h2⟩
  · rintro ⟨b, ⟨hb, h1⟩, h2⟩
    exact ⟨b, hb, by simpa using h1, h2⟩

theorem pair_mem_recPairs (db : DB) (tid : Nat) (d : CalDate) :
    (tid, d) ∈ recPairs db ↔ occupied db tid d = true := by
  simp only [recPairs, occupied, List.mem_filterMap, List.any_eq_true,
    decide_eq_true_eq, Option.map_eq_some']
  constructor
  · rintro ⟨b, hb, rid, h1, h2⟩
    refine ⟨b, hb, ?_, ?_⟩
    · rw [h1]
      exact congrArg some (congrArg Prod.fst h2)
    · exact congrArg Prod.snd h2
  · rintro ⟨b, hb, h1, h2⟩
    exact ⟨b, hb, tid, h1, by rw [h2]⟩

theorem genLoop_done_comp (t : RecurringTemplate) (e : CalDate) :
    ∀ (fuel : Nat) (cursor : CalDate) (db : DB) (ctr : Nat)
      (acc : List Booking) (db1 : DB) (ctr1 : Nat) (created : List Booking),
      genLoop t e fuel cursor db ctr acc = some (db1, ctr1, created) →
      db1.customers = db.customers ∧ db1.services = db.services ∧
      db1.invoices = db.invoices ∧ db1.payments = db.payments := by
  intro fuel
  induction fuel with
  | zero =>
    intro cursor db ctr acc db1 ctr1 created h
    cases h
  | succ f ih =>
    intro cursor db ctr acc db1 ctr1 created h
    simp only [genLoop] at h
    by_cases h1 : dateLe cursor e = true
    · rw [if_pos h1] at h
      by_cases h2 : occupied db t.id cursor = true
      · rw [if_pos h2] at h
        exact ih _ db ctr acc db1 ctr1 created h
      · rw [if_neg h2] at h
        rcases ih _ _ _ _ _ _ _ h with ⟨ha, hb, hc, hd⟩
        exact ⟨ha, hb, hc, hd⟩
    · rw [if_neg h1] at h
      injection h with h2
      injection h2 with hdb h3
      subst hdb
      exact ⟨rfl, rfl, rfl, rfl⟩

theorem genLoop_done_bookings (t : RecurringTemplate) (e : CalDate) :
    ∀ (fuel : Nat) (cursor : CalDate) (db : DB) (ctr : Nat)
      (acc : List Booking) (db1 : DB) (ctr1 : Nat) (created : List Booking),
      genLoop t e fuel cursor db ctr acc = some (db1, ctr1, created) →
      ∃ newBs, db1.bookings = db.bookings ++ newBs ∧
        ∀ b ∈ newBs, b.recurringId = some t.id := by
  intro fuel
  induction fuel with
  | zero =>
    intro cursor db ctr acc db1 ctr1 created h
    cases h
  | succ f ih =>
    intro cursor db ctr acc db1 ctr1 created h
    simp only [genLoop] at h
    by_cases h1 : dateLe cursor e = true
    · rw [if_pos h1] at h
      by_cases h2 : occupied db t.id cursor = true
      · rw [if_pos h2] at h
        exact ih _ db ctr acc db1 ctr1 created h
      · rw [if_neg h2] at h
        rcases ih _ _ _ _ _ _ _ h with ⟨newBs, hb, hall⟩
        refine ⟨bookingFromTemplate t ctr cursor :: newBs, ?_, ?_⟩
        · rw [hb]
          simp
        · intro b hbmem
          rcases List.mem_cons.mp hbmem with hbm | hbm
          · subst hbm
            rfl
          · exact hall b hbm
    · rw [if_neg h1] at h
      injection h with h2
      injection h2 with hdb h3
      subst hdb
      exact ⟨[], by simp [setNextDate], by intro b hb; cases hb⟩

theorem genLoop_done_templates (t : RecurringTemplate) (e : CalDate) :
    ∀ (fuel : Nat) (cursor : CalDate) (db : DB) (ctr : Nat)
      (acc : List Booking) (db1 : DB) (ctr1 : Nat) (created : List Booking),
      genLoop t e fuel cursor db ctr acc = some (db1, ctr1, created) →
      ∃ c, dateLe c e = false ∧
        db1.templates = db.templates.map (fun t2 =>
          if t2.id = t.id then { t2 with nextDate := some c } else t2) := by
  intro fuel
  induction fuel with
  | zero =>
    intro cursor db ctr acc db1 ctr1 created h
    cases h
  | succ f ih =>
    intro cursor db ctr acc db1 ctr1 created h
    simp only [genLoop] at h
    by_cases h1 : dateLe cursor e = true
    · rw [if_pos h1] at h
      by_cases h2 : occupied db t.id cursor = true
      · rw [if_pos h2] at h
        exact ih _ db ctr acc db1 ctr1 created h
      · rw [if_neg h2] at h
        rcases ih _ _ _ _ _ _ _ h with ⟨c, hc1, hc2⟩
        exact ⟨c, hc1, hc2⟩
    · rw [if_neg h1] at h
      injection h with h2
      injection h2 with hdb h3
      subst hdb
      exact ⟨cursor, Bool.eq_false_iff.mpr (fun hc => h1 hc), rfl⟩

theorem genLoop_done_dates (t : RecurringTemplate) (e : CalDate) :
    ∀ (fuel : Nat) (cursor : CalDate) (db : DB) (ctr : Nat)
      (acc : List Booking) (db1 : DB) (ctr1 : Nat) (created : List Booking),
      genLoop t e fuel cursor db ctr acc = some (db1, ctr1, created) →
      ∀ d ∈ occList t.frequency e fuel cursor, d ∈ tDates db1 t.id := by
  intro fuel
  induction fuel with
  | zero =>
    intro cursor db ctr acc db1 ctr1 created h
    cases h
  | succ f ih =>
    intro cursor db ctr acc db1 ctr1 created h
    simp only [genLoop] at h
    simp only [occList]
    by_cases h1 : dateLe cursor e = true
    · rw [if_pos h1] at h
      rw [if_pos h1]
      by_cases h2 : occupied db t.id cursor = true
      · rw [if_pos h2] at h
        intro d hd
        rcases List.mem_cons.mp hd with hdc | hdc
        · subst hdc
          rcases genLoop_done_bookings t e _ _ _ _ _ _ _ _ h with ⟨newBs, hb, -⟩
          have hcur : d ∈ tDates db t.id := (occupied_iff_mem db t.id d).mp h2
          have : tDates db1 t.id = tDates db t.id ++ tDatesOf newBs t.id := by
            rw [tDates, hb, tDatesOf_append]
            rfl
          rw [this]
          exact List.mem_append_left _ hcur
        · exact ih _ db ctr acc db1 ctr1 created h d hdc
      · rw [if_neg h2] at h
        intro d hd
        rcases List.mem_cons.mp hd with hdc | hdc
        · subst hdc
          rcases genLoop_done_bookings t e _ _ _ _ _ _ _ _ h with ⟨newBs, hb, -⟩
          have hcur : d ∈ tDates
              { db with bookings := db.bookings ++ [bookingFromTemplate t ctr d] }
              t.id := by
            rw [tDates]
            show d ∈ tDatesOf (db.bookings ++ [bookingFromTemplate t ctr d]) t.id
            rw [tDatesOf_append]
            apply List.mem_append_right
            simp [tDatesOf, bookingFromTemplate]
          have : tDates db1 t.id =
              tDates { db with bookings := db.bookings ++ [bookingFromTemplate t ctr d] }
                t.id ++ tDatesOf newBs t.id := by
            rw [tDates, hb, tDatesOf_append]
            rfl
          rw [this]
          exact List.mem_append_left _ hcur
        · exact ih _ _ _ _ _ _ _ h d hdc
    · rw [if_neg h1]
      intro d hd
      cases hd

theorem genLoop_done_pairs (t : RecurringTemplate) (e : CalDate) :
    ∀ (fuel : Nat) (cursor : CalDate) (db : DB) (ctr : Nat)
      (acc : List Booking) (db1 : DB) (ctr1 : Nat) (created : List Booking),
      (recPairs db).Nodup →
      genLoop t e fuel cursor db ctr acc = some (db1, ctr1, created) →
      (recPairs db1).Nodup := by
  intro fuel
  induction fuel with
  | zero =>
    intro cursor db ctr acc db1 ctr1 created _ h
    cases h
  | succ f ih =>
    intro cursor db ctr acc db1 ctr1 created hnd h
    simp only [genLoop] at h
    by_cases h1 : dateLe cursor e = true
    · rw [if_pos h1] at h
      by_cases h2 : occupied db t.id cursor = true
      · rw [if_pos h2] at h
        exact ih _ db ctr acc db1 ctr1 created hnd h
      · rw [if_neg h2] at h
        have hnd2 : (recPairs
            { db with bookings :=
                db.bookings ++ [bookingFromTemplate t ctr cursor] }).Nodup := by
          have hre : recPairs
              { db with bookings :=
                  db.bookings ++ [bookingFromTemplate t ctr cursor] } =
              recPairs db ++ [(t.id, cursor)] := by
            simp [recPairs, List.filterMap_append, bookingFromTemplate]
          rw [hre]
          simp only [List.nodup_append, List.nodup_cons, List.not_mem_nil,
            not_false_iff, List.nodup_nil, and_true, List.disjoint_singleton]
          refine ⟨hnd, trivial, ?_⟩
          intro hmem
          rw [pair_mem_recPairs db t.id cursor] at hmem
          rw [hmem] at h2
          exact h2 rfl
        exact ih _ _ _ _ db1 ctr1 created hnd2 h
    · rw [if_neg h1] at h
      injection h with h2
      injection h2 with hdb h3
      subst hdb
      simpa [recPairs, setNextDate] using hnd

theorem runTemplates_append (today : CalDate) (fuel : Nat)
    (l1 l2 : List RecurringTemplate) :
    ∀ (db : DB) (ctr : Nat) (acc : List Booking),
      runTemplates today fuel (l1 ++ l2) db ctr acc =
        match runTemplates today fuel l1 db ctr acc with
        | none => none
        | some r => runTemplates today fuel l2 r.1 r.2.1 r.2.2 := by
  induction l1 with
  | nil =>
    intro db ctr acc
    rfl
  | cons t rest ih =>
    intro db ctr acc
    rw [List.cons_append]
    simp only [runTemplates]
    cases hp : processTemplate today fuel t db ctr with
    | none => rfl
    | some r =>
      obtain ⟨db1, ctr1, created⟩ := r
      exact ih db1 ctr1 (acc ++ created)

theorem runTemplates_comp (today : CalDate) (fuel : Nat) :
    ∀ (ts : List RecurringTemplate) (db : DB) (ctr : Nat) (acc : List Booking)
      (db1 : DB) (ctr1 : Nat) (acc1 : List Booking),
      runTemplates today fuel ts db ctr acc = some (db1, ctr1, acc1) →
      db1.customers = db.customers ∧ db1.services = db.services ∧
      db1.invoices = db.invoices ∧ db1.payments = db.payments := by
  intro ts
  induction ts with
  | nil =>
    intro db ctr acc db1 ctr1 acc1 h
    simp only [runTemplates] at h
    injection h with h2
    injection h2 with h3 h4
    subst h3
    exact ⟨rfl, rfl, rfl, rfl⟩
  | cons t rest ih =>
    intro db ctr acc db1 ctr1 acc1 h
    simp only [runTemplates] at h
    cases hp : processTemplate today fuel t db ctr with
    | none =>
      rw [hp] at h
      cases h
    | some r =>
      obtain ⟨db2, ctr2, created⟩ := r
      rw [hp] at h
      rcases genLoop_done_comp t (genHorizon today) _ _ _ _ _ _ _ _ hp with
        ⟨hc, hs, hi, hpay⟩
      rcases ih db2 ctr2 (acc ++ created) db1 ctr1 acc1 h with ⟨hc1, hs1, hi1, hp1⟩
      exact ⟨hc1.trans hc, hs1.trans hs, hi1.trans hi, hp1.trans hpay⟩

theorem runTemplates_bookings (today : CalDate) (fuel : Nat) :
    ∀ (ts : List RecurringTemplate) (db : DB) (ctr : Nat) (acc : List Booking)
      (db1 : DB) (ctr1 : Nat) (acc1 : List Booking),
      runTemplates today fuel ts db ctr acc = some (db1, ctr1, acc1) →
      ∃ newBs, db1.bookings = db.bookings ++ newBs ∧
        ∀ b ∈ newBs, ∃ tp, tp ∈ ts ∧ b.recurringId = some tp.id := by
  intro ts
  induction ts with
  | nil =>
    intro db ctr acc db1 ctr1 acc1 h
    simp only [runTemplates] at h
    injection h with h2
    injection h2 with h3 h4
    subst h3
    exact ⟨[], by simp, by intro b hb; cases hb⟩
  | cons t rest ih =>
    intro db ctr acc db1 ctr1 acc1 h
    simp only [runTemplates] at h
    cases hp : processTemplate today fuel t db ctr with
    | none =>
      rw [hp] at h
      cases h
    | some r =>
      obtain ⟨db2, ctr2, created⟩ := r
      rw [hp] at h
      rcases genLoop_done_bookings t (genHorizon today) _ _ _ _ _ _ _ _ hp with
        ⟨n1, hb1, hall1⟩
      rcases ih db2 ctr2 (acc ++ created) db1 ctr1 acc1 h with ⟨n2, hb2, hall2⟩
      refine ⟨n1 ++ n2, ?_, ?_⟩
      · rw [hb2, hb1, List.append_assoc]
      · intro b hbm
        rcases List.mem_append.mp hbm with hbm | hbm
        · exact ⟨t, List.mem_cons_self t rest, hall1 b hbm⟩
        · rcases hall2 b hbm with ⟨tp, htp, hid⟩
          exact ⟨tp, List.mem_cons_of_mem t htp, hid⟩

theorem find?_id_map_upd (l : List RecurringTemplate) (tid tpid : Nat)
    (c : CalDate) :
    (l.map (fun t2 => if t2.id = tpid then { t2 with nextDate := some c }
        else t2)).find? (fun x => decide (x.id = tid)) =
      (l.find? (fun x => decide (x.id = tid))).map
        (fun t2 => if t2.id = tpid then { t2 with nextDate := some c }
          else t2) := by
  induction l with
  | nil => rfl
  | cons a l ih =>
    simp only [List.map_cons, List.find?_cons]
    by_cases h : a.id = tpid <;> by_cases h2 : a.id = tid
    · have h3 : tpid = tid := h.symm.trans h2
      simp [h, h2, h3, ih]
    · have h3 : ¬tpid = tid := by
        rw [← h]
        exact h2
      simp [h, h2, h3, ih]
    · have h3 : ¬tid = tpid := by
        rw [← h2]
        exact h
      simp [h, h2, h3, ih]
    · simp [h, h2, ih]

theorem runTemplates_find (today : CalDate) (fuel : Nat) :
    ∀ (ts : List RecurringTemplate) (db : DB) (ctr : Nat) (acc : List Booking)
      (db1 : DB) (ctr1 : Nat) (acc1 : List Booking) (tid : Nat),
      runTemplates today fuel ts db ctr acc = some (db1, ctr1, acc1) →
      findTemplate db1 tid = findTemplate db tid ∨
      (tid ∈ ts.map (fun x => x.id) ∧ ∃ t0 c,
        findTemplate db tid = some t0 ∧
        findTemplate db1 tid = some { t0 with nextDate := some c } ∧
        dateLe c (genHorizon today) = false) := by
  intro ts
  induction ts with
  | nil =>
    intro db ctr acc db1 ctr1 acc1 tid h
    simp only [runTemplates] at h
    injection h with h2
    injection h2 with h3 h4
    subst h3
    exact Or.inl rfl
  | cons t rest ih =>
    intro db ctr acc db1 ctr1 acc1 tid h
    simp only [runTemplates] at h
    cases hp : processTemplate today fuel t db ctr with
    | none =>
      rw [hp] at h
      cases h
    | some r =>
      obtain ⟨db2, ctr2, created⟩ := r
      rw [hp] at h
      rcases genLoop_done_templates t (genHorizon today) _ _ _ _ _ _ _ _ hp with
        ⟨c0, hc0, htmpl⟩
      have hdb2find : ∀ tid2, findTemplate db2 tid2 =
          (findTemplate db tid2).map (fun t2 =>
            if t2.id = t.id then { t2 with nextDate := some c0 } else t2) := by
        intro tid2
        rw [findTemplate, htmpl, find?_id_map_upd]
        rfl
      cases hdb : findTemplate db tid with
      | none =>
        have h2 : findTemplate db2 tid = none := by
          rw [hdb2find, hdb]
          rfl
        rcases ih db2 ctr2 (acc ++ created) db1 ctr1 acc1 tid h with
          hl | ⟨-, t0, c, h1, -, -⟩
        · rw [h2] at hl
          exact Or.inl hl
        · rw [h2] at h1
          cases h1
      | some t0 =>
        have ht0id : t0.id = tid := by
          have := List.find?_some hdb
          simpa using this
        by_cases hidt : t0.id = t.id
        · have h2 : findTemplate db2 tid =
              some { t0 with nextDate := some c0 } := by
            rw [hdb2find, hdb]
            simp [hidt]
          have hmemid : tid ∈ (t :: rest).map (fun x => x.id) := by
            simp only [List.map_cons, List.mem_cons]
            exact Or.inl (by rw [← ht0id, hidt])
          rcases ih db2 ctr2 (acc ++ created) db1 ctr1 acc1 tid h with
            hl | ⟨-, t0', c', h1, h2', h3'⟩
          · rw [h2] at hl
            exact Or.inr ⟨hmemid, t0, c0, rfl, hl, hc0⟩
          · rw [h2] at h1
            injection h1 with h1
            subst h1
            exact Or.inr ⟨hmemid, t0, c', rfl, h2', h3'⟩
        · have h2 : findTemplate db2 tid = some t0 := by
            rw [hdb2find, hdb]
            simp [hidt]
          rcases ih db2 ctr2 (acc ++ created) db1 ctr1 acc1 tid h with
            hl | ⟨hm, t0', c', h1, h2', h3'⟩
          · rw [h2] at hl
            exact Or.inl hl
          · rw [h2] at h1
            injection h1 with h1
            subst h1
            refine Or.inr ⟨?_, t0, c', rfl, h2', h3'⟩
            simp only [List.map_cons, List.mem_cons]
            exact Or.inr hm

theorem runTemplates_pairs (today : CalDate) (fuel : Nat) :
    ∀ (ts : List RecurringTemplate) (db : DB) (ctr : Nat) (acc : List Booking)
      (db1 : DB) (ctr1 : Nat) (acc1 : List Booking),
      (recPairs db).Nodup →
      runTemplates today fuel ts db ctr acc = some (db1, ctr1, acc1) →
      (recPairs db1).Nodup := by
  intro ts
  induction ts with
  | nil =>
    intro db ctr acc db1 ctr1 acc1 hnd h
    simp only [runTemplates] at h
    injection h with h2
    injection h2 with h3 h4
    subst h3
    exact hnd
  | cons t rest ih =>
    intro db ctr acc db1 ctr1 acc1 hnd h
    simp only [runTemplates] at h
    cases hp : processTemplate today fuel t db ctr with
    | none =>
      rw [hp] at h
      cases h
    | some r =>
      obtain ⟨db2, ctr2, created⟩ := r
      rw [hp] at h
      exact ih db2 ctr2 (acc ++ created) db1 ctr1 acc1
        (genLoop_done_pairs t (genHorizon today) _ _ _ _ _ _ _ _ hnd hp) h

theorem runTemplates_template_ids (today : CalDate) (fuel : Nat) :
    ∀ (ts : List RecurringTemplate) (db : DB) (ctr : Nat) (acc : List Booking)
      (db1 : DB) (ctr1 : Nat) (acc1 : List Booking),
      runTemplates today fuel ts db ctr acc = some (db1, ctr1, acc1) →
      db1.templates.map (fun x => x.id) = db.templates.map (fun x => x.id) := by
  intro ts
  induction ts with
  | nil =>
    intro db ctr acc db1 ctr1 acc1 h
    simp only [runTemplates] at h
    injection h with h2
    injection h2 with h3 h4
    subst h3
    rfl
  | cons t rest ih =>
    intro db ctr acc db1 ctr1 acc1 h
    simp only [runTemplates] at h
    cases hp : processTemplate today fuel t db ctr with
    | none =>
      rw [hp] at h
      cases h
    | some r =>
      obtain ⟨db2, ctr2, created⟩ := r
      rw [hp] at h
      rcases genLoop_done_templates t (genHorizon today) _ _ _ _ _ _ _ _ hp with
        ⟨c0, -, htmpl⟩
      have h2 : db2.templates.map (fun x => x.id) =
          db.templates.map (fun x => x.id) := by
        rw [htmpl, List.map_map]
        apply List.map_congr_left
        intro a _
        by_cases hid : a.id = t.id <;> simp [hid]
      exact (ih db2 ctr2 (acc ++ created) db1 ctr1 acc1 h).trans h2

theorem find?_of_mem_nodup (l : List RecurringTemplate)
    (t : RecurringTemplate)
    (hnd : (l.map (fun x => x.id)).Nodup) (hm : t ∈ l) :
    l.find? (fun x => decide (x.id = t.id)) = some t := by
  induction l with
  | nil => cases hm
  | cons a l ih =>
    simp only [List.map_cons, List.nodup_cons] at hnd
    rcases List.mem_cons.mp hm with hma | hma
    · subst hma
      simp [List.find?_cons]
    · by_cases hid : a.id = t.id
      · exfalso
        apply hnd.1
        rw [hid]
        exact List.mem_map.mpr ⟨t, hma, rfl⟩
      · simp only [List.find?_cons, hid, decide_False, cond_false]
        exact ih hnd.2 hma

theorem selected_ids_nodup (today : CalDate) (db : DB)
    (h : (db.templates.map (fun x => x.id)).Nodup) :
    ((selectedTemplates today db).map (fun x => x.id)).Nodup := by
  apply List.Nodup.sublist _ h
  exact List.Sublist.map _ (List.filter_sublist _)

/-! ## C4: monthly advance -/

/-- C4: the claim fails and the spec is the stated intent — the source
advances a monthly template with `nextDate.setMonth(nextDate.getMonth() + 1)`,
which does not clamp to the last valid day of the target month: advanced
from Jan 31, 2025 the cursor lands on Mar 3, 2025 (and from Jan 31 of the
leap year 2024 on Mar 2, 2024), not on Feb 28 (resp. Feb 29). -/
theorem C4_monthly_rolls_over :
    advanceDate "monthly" ⟨2025, 1, 31⟩ = ⟨2025, 3, 3⟩ ∧
    advanceDate "monthly" ⟨2024, 1, 31⟩ = ⟨2024, 3, 2⟩ ∧
    (⟨2025, 3, 3⟩ : CalDate) ≠ ⟨2025, 2, 28⟩ ∧
    (⟨2024, 3, 2⟩ : CalDate) ≠ ⟨2024, 2, 29⟩ := by
  refine ⟨by decide, by decide, by decide, by decide⟩

/-! ## C1: overpayment handling in POST /api/payments -/

/-- C1 counterexample: on an invoice with `amountDue = 100`, recording a
manual payment of `100.01` (`amountDue + 0.01`) is not rejected: the handler
answers success, stores the payment row, sets
`amountPaid = 100.01`, clamps `amountDue` to `0`, marks the invoice `paid`,
and credits the customer's `total_spent` by the full amount — refuting the
claimed validation and the claimed unchanged state. -/
theorem C1_counterexample :
    (postPayments exDbPay 10 1 (100 + 1 / 100) "cash" none none "T").1 =
      PayResp.created 10 ∧
    ((postPayments exDbPay 10 1 (100 + 1 / 100) "cash" none none "T").2.invoices.map
        (fun i => (i.amountPaid, i.amountDue, i.status))) =
      [(10001 / 100, 0, "paid")] ∧
    ((postPayments exDbPay 10 1 (100 + 1 / 100) "cash" none none "T").2.payments.map
        (fun p => p.amount)) = [10001 / 100] ∧
    ((postPayments exDbPay 10 1 (100 + 1 / 100) "cash" none none "T").2.customers.map
        (fun c => c.totalSpent)) = [10001 / 100] ∧
    exDbPay.invoices.map (fun i => (i.amountPaid, i.amountDue, i.status)) =
      [(0, 100, "sent")] ∧
    exDbPay.payments = [] ∧
    (100 : Rat) < 100 + 1 / 100 := by
  refine ⟨by decide, ?_, ?_, ?_, by decide, rfl, by norm_num⟩ <;>
    norm_num [postPayments, exDbPay, exInvoice, exDb0, updateInvoiceRow,
      exCustomer, List.find?]

/-- C1 (amended): the manual payment handler validates nothing about the
amount — a payment strictly greater than the invoice's `amountDue` is
accepted: it answers success, appends the payment row, sets
`amountPaid := amountPaid + amount`, clamps `amountDue` to `0`, forces the
status to `paid`, and credits the customer's `total_spent` by the full
amount. -/
theorem C1_overpayment_accepted (db : DB) (pid iid : Nat) (amt : Rat)
    (m : String) (r n : Option String) (now : String) (inv : Invoice)
    (hfind : db.invoices.find? (fun i => decide (i.id = iid)) = some inv)
    (hover : inv.amountDue < amt)
    (hdue : inv.total - inv.amountPaid ≤ inv.amountDue) :
    (postPayments db pid iid amt m r n now).1 = PayResp.created pid ∧
    (postPayments db pid iid amt m r n now).2.payments =
      db.payments ++
        [{ id := pid, invoiceId := iid, customerId := inv.customerId,
           amount := amt, method := m, referenceNumber := r,
           stripePaymentId := none, notes := n, status := "completed" }] ∧
    (postPayments db pid iid amt m r n now).2.invoices =
      db.invoices.map (fun i =>
        if i.id = iid then
          { i with amountPaid := inv.amountPaid + amt, amountDue := 0,
                   status := "paid", paidDate := some now }
        else i) ∧
    (postPayments db pid iid amt m r n now).2.customers =
      db.customers.map (fun c =>
        if c.id = inv.customerId then
          { c with totalSpent := c.totalSpent + amt }
        else c) := by
  have hneg : inv.total - (inv.amountPaid + amt) ≤ 0 := by linarith
  have hmax : max 0 (inv.total - (inv.amountPaid + amt)) = 0 :=
    max_eq_left hneg
  simp only [postPayments, hfind, updateInvoiceRow, hmax, if_pos hneg]
  exact ⟨trivial, trivial, trivial, trivial⟩

/-- Witness for `C1_overpayment_accepted` at the concrete fixture: an
overpayment of 150 against an invoice owing 100 is accepted and applied. -/
theorem C1_overpayment_accepted_witness :
    (postPayments exDbPay 10 1 150 "cash" none none "T").1 =
      PayResp.created 10 ∧
    (postPayments exDbPay 10 1 150 "cash" none none "T").2.invoices =
      exDbPay.invoices.map (fun i =>
        if i.id = 1 then
          { i with amountPaid := exInvoice.amountPaid + 150, amountDue := 0,
                   status := "paid", paidDate := some "T" }
        else i) := by
  have h := C1_overpayment_accepted exDbPay 10 1 150 "cash" none none "T"
    exInvoice (by decide) (by decide) (by norm_num [exInvoice])
  exact ⟨h.1, h.2.2.1⟩

/-! ## C2: reconciliation invariant -/

/-- C2 counterexample: a single manual payment of 150 against an invoice
with `total = 100` (a sequence of one payment application) leaves
`amountPaid + amountDue = 150 ≠ 100 = total`: the clamp in the manual
payment handler silently breaks the claimed equation. -/
theorem C2_counterexample :
    ((applyOps exDbPay [PayOp.manual 10 1 150 "cash" "T"]).invoices.map
        (fun i => (i.amountPaid + i.amountDue, i.total))) = [(150, 100)] ∧
    (150 : Rat) ≠ 100 := by
  refine ⟨?_, by norm_num⟩
  norm_num [applyOps, applyOp, postPayments, exDbPay, exInvoice, exDb0,
    updateInvoiceRow, exCustomer, List.find?]

/-- A payment application never changes the list of invoice ids. -/
theorem applyOp_invoice_ids (db : DB) (op : PayOp) :
    (applyOp db op).invoices.map (fun i => i.id) =
      db.invoices.map (fun i => i.id) := by
  cases op with
  | manual pid iid amt m now =>
    cases hf : db.invoices.find? (fun i => decide (i.id = iid)) with
    | none => simp [applyOp, postPayments, hf]
    | some inv =>
      simp only [applyOp, postPayments, hf, updateInvoiceRow, List.map_map]
      apply List.map_congr_left
      intro a _
      by_cases h : a.id = iid <;> simp [h]
  | hook pid ev now =>
    by_cases ht : ev.type = "checkout.session.completed"
    · cases hm : ev.session.invoiceId with
      | none => simp [applyOp, stripeWebhook, ht, hm]
      | some iid =>
        cases hf : db.invoices.find? (fun i => decide (i.id = iid)) with
        | none => simp [applyOp, stripeWebhook, ht, hm, hf]
        | some inv =>
          simp only [applyOp, stripeWebhook, if_pos ht, hm, hf,
            updateInvoiceRow, List.map_map]
          apply List.map_congr_left
          intro a _
          by_cases h : a.id = iid <;> simp [h]
    · simp [applyOp, stripeWebhook, ht]

/-- A payment application keeps every invoice's `amountDue` nonnegative. -/
theorem applyOp_due_nonneg (db : DB) (op : PayOp)
    (h : ∀ i ∈ db.invoices, 0 ≤ i.amountDue) :
    ∀ i ∈ (applyOp db op).invoices, 0 ≤ i.amountDue := by
  cases op with
  | manual pid iid amt m now =>
    cases hf : db.invoices.find? (fun i => decide (i.id = iid)) with
    | none => simpa [applyOp, postPayments, hf] using h
    | some inv =>
      simp only [applyOp, postPayments, hf, updateInvoiceRow]
      intro i hi
      rcases List.mem_map.mp hi with ⟨a, ha, rfl⟩
      by_cases hid : a.id = iid
      · simp [hid]
      · simpa [hid] using h a ha
  | hook pid ev now =>
    by_cases ht : ev.type = "checkout.session.completed"
    · cases hm : ev.session.invoiceId with
      | none => simpa [applyOp, stripeWebhook, ht, hm] using h
      | some iid =>
        cases hf : db.invoices.find? (fun i => decide (i.id = iid)) with
        | none => simpa [applyOp, stripeWebhook, ht, hm, hf] using h
        | some inv =>
          simp only [applyOp, stripeWebhook, if_pos ht, hm, hf, updateInvoiceRow]
          intro i hi
          rcases List.mem_map.mp hi with ⟨a, ha, rfl⟩
          by_cases hid : a.id = iid
          · simp [hid]
          · simpa [hid] using h a ha
    · simpa [applyOp, stripeWebhook, ht] using h

/-- A payment application within the invoice's remaining balance preserves
the reconciliation invariant of every invoice row. -/
theorem applyOp_inv (db : DB) (op : PayOp)
    (hNd : (db.invoices.map (fun i => i.id)).Nodup)
    (hInv : ∀ i ∈ db.invoices, invoiceInv i)
    (hOk : opOk db op) :
    ∀ i ∈ (applyOp db op).invoices, invoiceInv i := by
  cases op with
  | manual pid iid amt m now =>
    cases hf : db.invoices.find? (fun i => decide (i.id = iid)) with
    | none => simpa [applyOp, postPayments, hf] using hInv
    | some inv =>
      have hmem : inv ∈ db.invoices := List.mem_of_find?_eq_some hf
      have hid : inv.id = iid := by
        have := List.find?_some hf
        simpa using this
      have hamt : amt ≤ inv.amountDue := hOk inv hmem hid
      rcases hInv inv hmem with ⟨hsum, hpos⟩
      simp only [applyOp, postPayments, hf, updateInvoiceRow]
      intro i hi
      rcases List.mem_map.mp hi with ⟨a, ha, rfl⟩
      by_cases hida : a.id = iid
      · have haeq : a = inv :=
          List.inj_on_of_nodup_map hNd ha hmem (by rw [hida, hid])
        subst haeq
        have h0 : 0 ≤ a.total - (a.amountPaid + amt) := by linarith
        have hmax : max 0 (a.total - (a.amountPaid + amt)) =
            a.total - (a.amountPaid + amt) := max_eq_right h0
        simp only [if_pos hida, invoiceInv, hmax]
        constructor
        · ring
        · exact h0
      · simpa [hida] using hInv a ha
  | hook pid ev now =>
    by_cases ht : ev.type = "checkout.session.completed"
    · cases hm : ev.session.invoiceId with
      | none => simpa [applyOp, stripeWebhook, ht, hm] using hInv
      | some iid =>
        cases hf : db.invoices.find? (fun i => decide (i.id = iid)) with
        | none => simpa [applyOp, stripeWebhook, ht, hm, hf] using hInv
        | some inv =>
          simp only [applyOp, stripeWebhook, if_pos ht, hm, hf, updateInvoiceRow]
          intro i hi
          rcases List.mem_map.mp hi with ⟨a, ha, rfl⟩
          by_cases hida : a.id = iid
          · simp [hida, invoiceInv]
          · simpa [hida] using hInv a ha
    · simpa [applyOp, stripeWebhook, ht] using hInv

/-- A valid sequence of payment applications preserves the reconciliation
invariant of every invoice row. -/
theorem applyOps_inv (ops : List PayOp) (db : DB)
    (hNd : (db.invoices.map (fun i => i.id)).Nodup)
    (hInv : ∀ i ∈ db.invoices, invoiceInv i)
    (hSeq : validSeq db ops) :
    ∀ i ∈ (applyOps db ops).invoices, invoiceInv i := by
  induction ops generalizing db with
  | nil => simpa [applyOps] using hInv
  | cons op rest ih =>
    rcases hSeq with ⟨hOk, hSeq1⟩
    have hNd1 : ((applyOp db op).invoices.map (fun i => i.id)).Nodup := by
      rw [applyOp_invoice_ids]
      exact hNd
    exact ih (applyOp db op) hNd1 (applyOp_inv db op hNd hInv hOk) hSeq1

/-- Any sequence of payment applications keeps `amountDue` nonnegative. -/
theorem applyOps_due_nonneg (ops : List PayOp) (db : DB)
    (h : ∀ i ∈ db.invoices, 0 ≤ i.amountDue) :
    ∀ i ∈ (applyOps db ops).invoices, 0 ≤ i.amountDue := by
  induction ops generalizing db with
  | nil => simpa [applyOps] using h
  | cons op rest ih => exact ih (applyOp db op) (applyOp_due_nonneg db op h)

/-- C2 (amended): `amountDue ≥ 0` does hold after any sequence of payment
applications, but the equation `amountPaid + amountDue = total` is only
preserved when every manual payment is within the invoice's remaining
balance at its point of application — an overpayment breaks it (see the
counterexample), because the handler clamps `amountDue` at 0 while
`amountPaid` keeps the full amount. -/
theorem C2_invariant_if_no_overpayment (db : DB) (ops : List PayOp) :
    (((db.invoices.map (fun i => i.id)).Nodup ∧
        (∀ i ∈ db.invoices, invoiceInv i) ∧ validSeq db ops) →
      ∀ i ∈ (applyOps db ops).invoices, invoiceInv i) ∧
    ((∀ i ∈ db.invoices, 0 ≤ i.amountDue) →
      ∀ i ∈ (applyOps db ops).invoices, 0 ≤ i.amountDue) := by
  constructor
  · rintro ⟨hNd, hInv, hSeq⟩
    exact applyOps_inv ops db hNd hInv hSeq
  · intro h
    exact applyOps_due_nonneg ops db h

/-- Witness for `C2_invariant_if_no_overpayment`: a webhook confirmation on
the fixture invoice yields a row satisfying the invariant. -/
theorem C2_invariant_if_no_overpayment_witness :
    invoiceInv { exInvoice with
                 amountPaid := 100, amountDue := 0, status := "paid",
                 paidDate := some "U", stripePaymentIntent := some "pi_1" } := by
  have h := (C2_invariant_if_no_overpayment exDbPay
    [PayOp.hook 11 exEvent "U"]).1
  apply h
  · refine ⟨by decide, ?_, ?_⟩
    · intro i hi
      have hie : i = exInvoice := by simpa [exDbPay, exDb0] using hi
      subst hie
      norm_num [exInvoice, invoiceInv]
    · exact ⟨trivial, trivial⟩
  · norm_num [applyOps, applyOp, stripeWebhook, exDbPay, exEvent, exInvoice,
      exDb0, updateInvoiceRow, List.find?]

/-! ## C5: webhook redelivery -/

/-- C5 counterexample: delivering the same checkout-completed event twice
leaves two Payment rows carrying the processor reference `pi_1`, not
exactly one. -/
theorem C5_counterexample :
    (((stripeWebhook ((stripeWebhook exDbPay 10 exEvent "T").2) 11 exEvent
          "U").2.payments.filter
        (fun p => decide (p.stripePaymentId = some "pi_1"))).length = 2) ∧
    2 ≠ 1 := by
  refine ⟨by decide, by decide⟩

/-- C5 (amended): the webhook handler is not idempotent at the payments
table — redelivering the same checkout-completed event records a second,
duplicate Payment row for the same processor reference; the invoice itself
does remain `paid` with `amountPaid` and `amountDue` unchanged by the
second delivery. -/
theorem C5_redelivery_duplicates_payment (db : DB) (pid1 pid2 : Nat)
    (ev : StripeEvent) (now1 now2 : String) (iid : Nat) (inv : Invoice)
    (htype : ev.type = "checkout.session.completed")
    (hmeta : ev.session.invoiceId = some iid)
    (hfind : db.invoices.find? (fun i => decide (i.id = iid)) = some inv) :
    (stripeWebhook db pid1 ev now1).1 = WebhookResp.received ∧
    (stripeWebhook ((stripeWebhook db pid1 ev now1).2) pid2 ev now2).1 =
      WebhookResp.received ∧
    ((stripeWebhook ((stripeWebhook db pid1 ev now1).2) pid2 ev now2).2).payments =
      db.payments ++
        [{ id := pid1, invoiceId := iid, customerId := inv.customerId,
           amount := ev.session.amountTotal / 100, method := "card",
           referenceNumber := none,
           stripePaymentId := some ev.session.paymentIntent,
           notes := none, status := "completed" },
         { id := pid2, invoiceId := iid, customerId := inv.customerId,
           amount := ev.session.amountTotal / 100, method := "card",
           referenceNumber := none,
           stripePaymentId := some ev.session.paymentIntent,
           notes := none, status := "completed" }] ∧
    ((stripeWebhook ((stripeWebhook db pid1 ev now1).2) pid2 ev now2).2).invoices.map
        (fun i => (i.id, i.amountPaid, i.amountDue, i.status)) =
      ((stripeWebhook db pid1 ev now1).2).invoices.map
        (fun i => (i.id, i.amountPaid, i.amountDue, i.status)) := by
  have hid : inv.id = iid := by
    have := List.find?_some hfind
    simpa using this
  have hpe : ((fun i => decide (i.id = iid)) ∘ (fun i : Invoice =>
      if i.id = iid then
        { i with amountPaid := i.total, amountDue := 0, status := "paid",
                 paidDate := some now1,
                 stripePaymentIntent := some ev.session.paymentIntent }
      else i)) = (fun i : Invoice => decide (i.id = iid)) := by
    funext a
    by_cases h : a.id = iid <;> simp [h]
  simp only [stripeWebhook, if_pos htype, hmeta, hfind, updateInvoiceRow]
  rw [List.find?_map, hpe, hfind, Option.map_some']
  rw [if_pos hid]
  refine ⟨by trivial, by trivial, ?_, ?_⟩
  · simp
  · simp only [List.map_map]
    apply List.map_congr_left
    intro a _
    by_cases h : a.id = iid <;> simp [h]

/-- Witness for `C5_redelivery_duplicates_payment` at the concrete fixture:
redelivering `exEvent` leaves the fixture invoice settled but two payment
rows referencing `pi_1`. -/
theorem C5_redelivery_duplicates_payment_witness :
    ((stripeWebhook ((stripeWebhook exDbPay 10 exEvent "T").2) 11 exEvent
        "U").2).invoices.map (fun i => (i.id, i.amountPaid, i.amountDue, i.status)) =
      ((stripeWebhook exDbPay 10 exEvent "T").2).invoices.map
        (fun i => (i.id, i.amountPaid, i.amountDue, i.status)) :=
  (C5_redelivery_duplicates_payment exDbPay 10 11 exEvent "T" "U" 1 exInvoice
    rfl rfl (by decide)).2.2.2

/-! ## C7: status transition validation -/

/-- C7 counterexample: a staff update moving the completed booking (id 1)
back to `pending` is not rejected — the handler answers with the updated
booking and the stored status becomes `pending`, not `completed`. -/
theorem C7_counterexample :
    (putBooking exDbBooking 1
        { BookingUpdates.empty with status := some "pending" } "T1").1 ≠
      UpdateResp.notFound ∧
    ((putBooking exDbBooking 1
        { BookingUpdates.empty with status := some "pending" } "T1").2.bookings.map
      (fun b => (b.id, b.status))) = [(1, "pending"), (2, "pending")] ∧
    exDbBooking.bookings.map (fun b => (b.id, b.status)) =
      [(1, "completed"), (2, "pending")] := by
  refine ⟨by decide, by decide, by decide⟩

/-- C7 (amended): the booking update handler performs no status-transition
validation — whatever status the request carries is stored.  In particular a
request moving a `completed` booking back to `pending` is accepted (the
stored status becomes `pending`); a `pending → cancelled` request is
likewise accepted, stamping `cancelled_at`. -/
theorem C7_backward_transition_accepted (db : DB) (bid : Nat)
    (u : BookingUpdates) (now : String) (b : Booking)
    (hfind : db.bookings.find? (fun x => decide (x.id = bid)) = some b) :
    (u.status = some "pending" →
      ∃ b2, putBooking db bid u now =
          (UpdateResp.ok b2,
            { db with bookings :=
                db.bookings.map (fun x => if x.id = bid then b2 else x) }) ∧
        b2.status = "pending") ∧
    (u.status = some "cancelled" →
      ∃ b2, (putBooking db bid u now).1 = UpdateResp.ok b2 ∧
        b2.status = "cancelled" ∧ b2.cancelledAt = some now) := by
  constructor
  · intro hs
    simp only [putBooking, hfind, hs]
    exact ⟨_, rfl, rfl⟩
  · intro hs
    simp only [putBooking, hfind, hs]
    exact ⟨_, rfl, rfl, rfl⟩

/-- Witness for `C7_backward_transition_accepted`: on the fixture store the
completed booking is moved back to `pending` and the pending booking is
cancelled, both without rejection. -/
theorem C7_backward_transition_accepted_witness :
    (∃ b2, putBooking exDbBooking 1
        { BookingUpdates.empty with status := some "pending" } "T1" =
          (UpdateResp.ok b2,
            { exDbBooking with bookings :=
                exDbBooking.bookings.map (fun x => if x.id = 1 then b2 else x) }) ∧
      b2.status = "pending") ∧
    (∃ b2, (putBooking exDbBooking 2
        { BookingUpdates.empty with status := some "cancelled" } "T1").1 =
          UpdateResp.ok b2 ∧
      b2.status = "cancelled" ∧ b2.cancelledAt = some "T1") := by
  constructor
  · exact (C7_backward_transition_accepted exDbBooking 1
      { BookingUpdates.empty with status := some "pending" } "T1" exBookingDone
      (by decide)).1 rfl
  · exact (C7_backward_transition_accepted exDbBooking 2
      { BookingUpdates.empty with status := some "cancelled" } "T1"
      exBookingPending (by decide)).2 rfl

/-! ## C8: overdue sweep -/

/-- C8 counterexample: the claimed equivalence fails in the right-to-left
reading — after the sweep the invoice with id 2 has status `overdue`, yet
before the sweep its status was `overdue` (not `sent`), so "status is
overdue after the sweep" does not imply "status was `sent`, dueDate past
and amountDue positive before the sweep". -/
theorem C8_counterexample :
    ((checkOverdueInvoices ⟨2025, 3, 1⟩ exDbSweep).invoices.map
        (fun i => (i.id, i.status))) =
      [(1, "overdue"), (2, "overdue"), (3, "sent")] ∧
    exDbSweep.invoices.map (fun i => (i.id, i.status)) =
      [(1, "sent"), (2, "overdue"), (3, "sent")] ∧
    ("overdue" : String) ≠ "sent" := by
  refine ⟨by decide, by decide, by decide⟩

/-- C8 (amended): the sweep updates exactly the invoices matching
`status = sent ∧ dueDate < today ∧ amountDue > 0` and touches no other row;
consequently an invoice's status is `overdue` after the sweep iff it
matched the condition *or was already overdue before* — the claimed
equivalence only fails on invoices that entered the sweep already
`overdue`. -/
theorem C8_sweep_exact (today : CalDate) (db : DB) :
    List.Forall₂ (fun pre post =>
      (post.status = "overdue" ↔
        ((pre.status = "sent" ∧ dateLt pre.dueDate today ∧ 0 < pre.amountDue) ∨
          pre.status = "overdue")) ∧
      ((pre.status = "sent" ∧ dateLt pre.dueDate today ∧ 0 < pre.amountDue) →
        post = { pre with status := "overdue" }) ∧
      (¬(pre.status = "sent" ∧ dateLt pre.dueDate today ∧ 0 < pre.amountDue) →
        post = pre))
      db.invoices (checkOverdueInvoices today db).invoices := by
  simp only [checkOverdueInvoices]
  rw [List.forall₂_map_right_iff]
  rw [List.forall₂_same]
  intro i _
  by_cases hc : i.status = "sent" ∧ dateLt i.dueDate today ∧ 0 < i.amountDue
  · rcases hc with ⟨h1, h2, h3⟩
    simp [h1, h2, h3]
  · simp only [if_neg hc]
    refine ⟨?_, fun h => absurd h hc, fun _ => by trivial⟩
    constructor
    · intro h
      exact Or.inr h
    · rintro (h | h)
      · exact absurd h hc
      · exact h

/-! ## C10: customer deduplication by lowercased email -/

/-- C10: the public booking handler deduplicates customers on the
lowercased submitted email: if a customer row carries exactly the
lowercased email, no customer is inserted and the booking is attached to
that row; otherwise exactly one customer row is appended, carrying the
lowercased email, and the booking is attached to it. -/
theorem C10_customer_dedup (db : DB) (ncid nbid : Nat)
    (data : BookingSubmission) (e : String) (sd : CalDate) (st : String)
    (hemail : data.customerEmail = some e) (he : e ≠ "")
    (hdate : data.scheduledDate = some sd)
    (htime : data.scheduledTime = some st) (hst : st ≠ "") :
    (∀ c0, db.customers.find? (fun c => decide (c.email = jsToLower e)) = some c0 →
      (postBookings db ncid nbid data).2.customers = db.customers ∧
      ∃ bk, (postBookings db ncid nbid data).1 = BookResp.bookingCreated nbid ∧
        (postBookings db ncid nbid data).2.bookings = db.bookings ++ [bk] ∧
        bk.customerId = c0.id ∧ bk.id = nbid) ∧
    (db.customers.find? (fun c => decide (c.email = jsToLower e)) = none →
      ∃ nc, (postBookings db ncid nbid data).2.customers = db.customers ++ [nc] ∧
        nc.id = ncid ∧ nc.email = jsToLower e ∧
        ∃ bk, (postBookings db ncid nbid data).1 = BookResp.bookingCreated nbid ∧
          (postBookings db ncid nbid data).2.bookings = db.bookings ++ [bk] ∧
          bk.customerId = ncid ∧ bk.id = nbid) := by
  have hne : ¬(e = "" ∨ st = "") := by
    rintro (h | h)
    · exact he h
    · exact hst h
  constructor
  · intro c0 hc0
    simp only [postBookings, hemail, hdate, htime, if_neg hne, hc0]
    exact ⟨by trivial, _, by trivial, by trivial, by trivial, by trivial⟩
  · intro hnone
    simp only [postBookings, hemail, hdate, htime, if_neg hne, hnone]
    exact ⟨_, by trivial, by trivial, by trivial, _, by trivial, by trivial,
      by trivial, by trivial⟩

/-- Witness for `C10_customer_dedup`: submitting `A@B.com` against the
fixture store (whose customer holds `a@b.com`) creates no customer row;
against the empty-customer store it creates exactly one row holding
`a@b.com`. -/
theorem C10_customer_dedup_witness :
    (postBookings exDb0 7 8 exSubmission).2.customers = exDb0.customers ∧
    (postBookings exDbNoCustomers 7 8 exSubmission).2.customers.map
        (fun c => (c.id, c.email)) = [(7, "a@b.com")] := by
  constructor
  · exact ((C10_customer_dedup exDb0 7 8 exSubmission "A@B.com" ⟨2025, 1, 5⟩
      "09:00 AM" rfl (by decide) rfl rfl (by decide)).1 exCustomer
      (by decide)).1
  · obtain ⟨nc, h1, h2, h3, -⟩ := (C10_customer_dedup exDbNoCustomers 7 8
      exSubmission "A@B.com" ⟨2025, 1, 5⟩ "09:00 AM" rfl (by decide) rfl rfl
      (by decide)).2 (by decide)
    rw [h1]
    simp only [exDbNoCustomers, List.map_cons, List.map_nil, List.nil_append,
      h2, h3]
    decide

/-! ## C3: idempotent generation -/

/-- C3: recurring generation is idempotent.  The executed DDL
(`database/init.js`) declares no foreign-key or check constraints, so no
booking insert can fail: if a run completes, every selected template's loop
finished with its `next_date` pushed past the horizon.  A second run on the
same day, with the same step bound, therefore selects no templates at all:
it creates zero additional bookings and leaves the store exactly unchanged;
moreover any run preserves uniqueness of the
`(recurringTemplateId, scheduledDate)` keys, enforced by the per-date
existence check. -/
theorem C3_idempotent_generation (today : CalDate) (fuel : Nat) (db : DB)
    (ctr ctr2 : Nat) (db1 : DB) (ctr1 : Nat) (created : List Booking)
    (hNd : (db.templates.map (fun x => x.id)).Nodup)
    (h1 : generateRecurringBookings today fuel db ctr =
      some (db1, ctr1, created)) :
    generateRecurringBookings today fuel db1 ctr2 = some (db1, ctr2, []) ∧
    ((recPairs db).Nodup → (recPairs db1).Nodup) := by
  have hids : db1.templates.map (fun x => x.id) =
      db.templates.map (fun x => x.id) :=
    runTemplates_template_ids today fuel _ db ctr [] db1 ctr1 created h1
  have hNd1 : (db1.templates.map (fun x => x.id)).Nodup := by
    rw [hids]
    exact hNd
  constructor
  · have hsel1 : selectedTemplates today db1 = [] := by
      rw [selectedTemplates, List.filter_eq_nil_iff]
      intro t1 ht1mem ht1sel
      have hselne : ∀ c', t1.nextDate = some c' →
          dateLe c' (genHorizon today) = false → False := by
        intro c' hc' hfalse
        simp [templateSelected, hc', hfalse] at ht1sel
      have hfind1 : findTemplate db1 t1.id = some t1 :=
        find?_of_mem_nodup _ _ hNd1 ht1mem
      rcases runTemplates_find today fuel _ db ctr [] db1 ctr1 created t1.id h1
        with hsame | ⟨-, t0, c0, hdb, hdb1, hc0⟩
      · -- t1's row is unchanged between db and db1, so t1 was selected in db
        -- and its loop completed: its final row is past the horizon
        have hfinddb : findTemplate db t1.id = some t1 := by
          rw [← hsame]
          exact hfind1
        have hmemdb : t1 ∈ db.templates := List.mem_of_find?_eq_some hfinddb
        have ht1seldb : t1 ∈ selectedTemplates today db :=
          List.mem_filter.mpr ⟨hmemdb, ht1sel⟩
        rcases List.append_of_mem ht1seldb with ⟨l1, l2, hsplit⟩
        have hrun := h1
        rw [generateRecurringBookings, hsplit, runTemplates_append] at hrun
        cases hA : runTemplates today fuel l1 db ctr [] with
        | none =>
          rw [hA] at hrun
          cases hrun
        | some rA =>
          rw [hA] at hrun
          obtain ⟨dbA, ctrA, accA⟩ := rA
          simp only [runTemplates] at hrun
          cases hp : processTemplate today fuel t1 dbA ctrA with
          | none =>
            rw [hp] at hrun
            cases hrun
          | some rB =>
            obtain ⟨dbB, ctrB, createdB⟩ := rB
            rw [hp] at hrun
            rcases genLoop_done_templates t1 (genHorizon today) _ _ _ _ _ _ _ _
              hp with ⟨cB, hcB, htmplB⟩
            cases hfa : findTemplate dbA t1.id with
            | none =>
              have hfb : findTemplate dbB t1.id = none := by
                rw [findTemplate, htmplB, find?_id_map_upd]
                have : dbA.templates.find? (fun x => decide (x.id = t1.id)) =
                    none := hfa
                rw [this]
                rfl
              rcases runTemplates_find today fuel l2 dbB ctrB (accA ++ createdB)
                db1 ctr1 created t1.id hrun with hs2 | ⟨-, t0', c', hf1, -, -⟩
              · rw [hfind1, hfb] at hs2
                cases hs2
              · rw [hfb] at hf1
                cases hf1
            | some x =>
              have hxid : x.id = t1.id := by
                have := List.find?_some hfa
                simpa using this
              have hfb : findTemplate dbB t1.id =
                  some { x with nextDate := some cB } := by
                rw [findTemplate, htmplB, find?_id_map_upd]
                have : dbA.templates.find? (fun x => decide (x.id = t1.id)) =
                    some x := hfa
                rw [this]
                simp [hxid]
              rcases runTemplates_find today fuel l2 dbB ctrB (accA ++ createdB)
                db1 ctr1 created t1.id hrun with hs2 | ⟨-, t0', c', hf1, hf2, hc'⟩
              · rw [hfind1, hfb] at hs2
                injection hs2 with hs2
                exact hselne cB (by rw [hs2]) hcB
              · rw [hfb] at hf1
                injection hf1 with hf1
                subst hf1
                rw [hfind1] at hf2
                injection hf2 with hf2
                exact hselne c' (by rw [hf2]) hc'
      · -- t1's row was nextDate-updated past the horizon: contradiction with
        -- it being selected in db1
        rw [hfind1] at hdb1
        injection hdb1 with hdb1
        exact hselne c0 (by rw [hdb1]) hc0
    rw [generateRecurringBookings, hsel1]
    rfl
  · intro hpairs
    exact runTemplates_pairs today fuel _ db ctr [] db1 ctr1 created hpairs h1

/-- Witness for `C3_idempotent_generation`: after the run over the base
store, a second run on the same day returns the store unchanged and creates
nothing. -/
theorem C3_idempotent_generation_witness :
    generateRecurringBookings ⟨2025, 1, 1⟩ 20 exDb1 200 =
      some (exDb1, 200, []) := by
  have h1 : generateRecurringBookings ⟨2025, 1, 1⟩ 20 exDb0 100 =
      some (exDb1, exCtr1, exCreated) := by decide
  exact (C3_idempotent_generation ⟨2025, 1, 1⟩ 20 exDb0 100 200 exDb1 exCtr1
    exCreated (by decide) h1).1

/-! ## C9: failure isolation -/

/-- C9 counterexample: the failure the claim isolates does not exist at
runtime.  In the three-template fixture the middle template (id 2)
references customer 2, which has no row in the store (the only customer id
is 1); the executed DDL (`database/init.js`) declares no foreign keys, so
its inserts nevertheless succeed: the run books it on all three of its
horizon occurrence dates and advances its `next_date` past the horizon —
the template is fully processed, not failed, so no error is ever caught
whose isolation the claim describes. -/
theorem C9_counterexample :
    exDbIso.customers.map (fun c => c.id) = [1] ∧
    exTemplate2.customerId = 2 ∧
    (exCreatedIso.filter (fun b => decide (b.recurringId = some 2))).map
        (fun b => b.scheduledDate) =
      [⟨2025, 1, 1⟩, ⟨2025, 1, 8⟩, ⟨2025, 1, 15⟩] ∧
    findTemplate exDb1iso 2 =
      some { exTemplate2 with nextDate := some ⟨2025, 1, 22⟩ } := by
  refine ⟨by decide, by decide, by decide, by decide⟩

/-- C9 (amended): the executed DDL (`database/init.js`) declares no
foreign-key or check constraints, so a missing customer or service
reference raises no error and the per-template catch never fires; isolation
holds unconditionally — in any completed run, every selected template
(dangling references included) is fully processed independently of every
other template: its `next_date` is advanced past the horizon and every
occurrence date of its cursor sequence carries a booking of that template
in the final store. -/
theorem C9_template_isolation (today : CalDate) (fuel : Nat) (db : DB)
    (ctr : Nat) (db1 : DB) (ctr1 : Nat) (created : List Booking)
    (t : RecurringTemplate)
    (hNd : (db.templates.map (fun x => x.id)).Nodup)
    (h1 : generateRecurringBookings today fuel db ctr =
      some (db1, ctr1, created))
    (hsel : t ∈ selectedTemplates today db) :
    (∃ c, findTemplate db1 t.id = some { t with nextDate := some c } ∧
      dateLe c (genHorizon today) = false) ∧
    ∀ d ∈ occList t.frequency (genHorizon today) fuel (t.nextDate.getD today),
      d ∈ tDates db1 t.id := by
  have hNdSel : ((selectedTemplates today db).map (fun x => x.id)).Nodup :=
    selected_ids_nodup today db hNd
  have htmem : t ∈ db.templates := List.mem_of_mem_filter hsel
  have hfinddb : findTemplate db t.id = some t :=
    find?_of_mem_nodup _ _ hNd htmem
  rcases List.append_of_mem hsel with ⟨l1, l2, hsplit⟩
  have hnotin : (t.id ∉ l1.map (fun x => x.id)) ∧
      (t.id ∉ l2.map (fun x => x.id)) := by
    rw [hsplit] at hNdSel
    simp only [List.map_append, List.map_cons, List.nodup_append,
      List.nodup_cons] at hNdSel
    constructor
    · intro hmem
      exact hNdSel.2.2 hmem (List.mem_cons_self _ _)
    · exact hNdSel.2.1.1
  have hrun := h1
  rw [generateRecurringBookings, hsplit, runTemplates_append] at hrun
  cases hA : runTemplates today fuel l1 db ctr [] with
  | none =>
    rw [hA] at hrun
    cases hrun
  | some rA =>
    rw [hA] at hrun
    obtain ⟨dbA, ctrA, accA⟩ := rA
    have hfindA : findTemplate dbA t.id = some t := by
      rcases runTemplates_find today fuel l1 db ctr [] dbA ctrA accA t.id hA
        with hsame | ⟨hm, -, -, -, -, -⟩
      · rw [hsame]
        exact hfinddb
      · exact absurd hm hnotin.1
    simp only [runTemplates] at hrun
    cases hp : processTemplate today fuel t dbA ctrA with
    | none =>
      rw [hp] at hrun
      cases hrun
    | some rB =>
      obtain ⟨dbB, ctrB, createdB⟩ := rB
      rw [hp] at hrun
      rcases genLoop_done_templates t (genHorizon today) _ _ _ _ _ _ _ _ hp
        with ⟨cB, hcB, htmplB⟩
      have hfindB : findTemplate dbB t.id =
          some { t with nextDate := some cB } := by
        rw [findTemplate, htmplB, find?_id_map_upd]
        have : dbA.templates.find? (fun x => decide (x.id = t.id)) = some t :=
          hfindA
        rw [this]
        simp
      have hdatesB := genLoop_done_dates t (genHorizon today) _ _ _ _ _ _ _ _ hp
      rcases runTemplates_bookings today fuel l2 dbB ctrB (accA ++ createdB)
        db1 ctr1 created hrun with ⟨newBs, hbk, -⟩
      constructor
      · rcases runTemplates_find today fuel l2 dbB ctrB (accA ++ createdB)
          db1 ctr1 created t.id hrun with hsame | ⟨hm, -, -, -, -, -⟩
        · exact ⟨cB, by rw [hsame]; exact hfindB, hcB⟩
        · exact absurd hm hnotin.2
      · intro d hd
        have hdB : d ∈ tDates dbB t.id := hdatesB d hd
        rw [tDates, hbk, tDatesOf_append]
        exact List.mem_append_left _ hdB

/-- Witness for `C9_template_isolation`, at the dangling-reference template
itself: in the three-template run where the middle template's customer id 2
has no customer row, that template is still fully processed — it receives
its booking on 2025-01-15. -/
theorem C9_template_isolation_witness :
    (⟨2025, 1, 15⟩ : CalDate) ∈ tDates exDb1iso 2 := by
  have h1 : generateRecurringBookings ⟨2025, 1, 1⟩ 20 exDbIso 100 =
      some (exDb1iso, exCtr1iso, exCreatedIso) := by decide
  exact (C9_template_isolation ⟨2025, 1, 1⟩ 20 exDbIso 100 exDb1iso
    exCtr1iso exCreatedIso exTemplate2 (by decide) h1 (by decide)).2
    ⟨2025, 1, 15⟩ (by decide)

/-! ## C6: unknown frequency -/

/-- If the cursor does not advance (the frequency hits no switch case) and a
booking already exists on the cursor date inside the horizon, the generation
loop never terminates, whatever the step bound. -/
theorem genLoop_stuck (t : RecurringTemplate) (e cursor : CalDate)
    (hadv : advanceDate t.frequency cursor = cursor)
    (hle : dateLe cursor e = true) :
    ∀ (fuel : Nat) (db : DB) (ctr : Nat) (acc : List Booking),
      occupied db t.id cursor = true →
      genLoop t e fuel cursor db ctr acc = none := by
  intro fuel
  induction fuel with
  | zero =>
    intro db ctr acc _
    rfl
  | succ f ih =>
    intro db ctr acc hocc
    simp only [genLoop, if_pos hle, if_pos hocc, hadv]
    exact ih db ctr acc hocc

/-- C6: the claim fails and the spec is the stated intent — a template with
a frequency outside the three known values is neither skipped nor reported:
the switch has no default case, the cursor never advances, and the
generation loop never exits.  On the fixture store (one active template with
frequency `daily`, nextDate 2025-01-01, run on 2025-01-01) the run fails to
complete within any step bound. -/
theorem C6_unknown_frequency_loops_forever :
    ∀ (fuel ctr : Nat),
      generateRecurringBookings ⟨2025, 1, 1⟩ fuel exDbBad ctr = none := by
  have hsel : selectedTemplates ⟨2025, 1, 1⟩ exDbBad = [exTemplateBad] := by
    decide
  intro fuel ctr
  rw [generateRecurringBookings, hsel]
  have hdiv : processTemplate ⟨2025, 1, 1⟩ fuel exTemplateBad exDbBad ctr =
      none := by
    rw [processTemplate]
    cases fuel with
    | zero => rfl
    | succ f =>
      have h1 : dateLe ((exTemplateBad.nextDate).getD ⟨2025, 1, 1⟩)
          (genHorizon ⟨2025, 1, 1⟩) = true := by decide
      have h2 : occupied exDbBad exTemplateBad.id
          ((exTemplateBad.nextDate).getD ⟨2025, 1, 1⟩) = false := by decide
      have h4 : advanceDate exTemplateBad.frequency
          ((exTemplateBad.nextDate).getD ⟨2025, 1, 1⟩) =
          (exTemplateBad.nextDate).getD ⟨2025, 1, 1⟩ := by decide
      have h2n : ¬(occupied exDbBad exTemplateBad.id
          ((exTemplateBad.nextDate).getD ⟨2025, 1, 1⟩) = true) := by
        simp [h2]
      simp only [genLoop, if_pos h1, if_neg h2n, h4]
      apply genLoop_stuck exTemplateBad (genHorizon ⟨2025, 1, 1⟩)
        ((exTemplateBad.nextDate).getD ⟨2025, 1, 1⟩) h4 h1
      simp [occupied, bookingFromTemplate]
  rw [runTemplates, hdiv]

end Bubblebee
